import Mathlib

/-!
# Verification of the Ampio MQTT bridge (custom_components/ampio)

Shallow embedding of the discovery-and-decode pipeline of the Ampio
home-automation bridge: base64 name decoding (`models.base64decode`),
item-name extraction (`models.ItemName`), the per-module-type entity
config decoder (`models.AmpioModuleInfo.update_configs` and the
`Ampio*Config.from_ampio_device` builders), alarm and cover command
encodings (`alarm_control_panel.py`, `cover.py`), the discovery message
handlers (`discovery.py`), the subscription bookkeeping of
`client.AmpioAPI`, and the voluptuous schemas of `validators.py`.

Python strings are modelled as Lean `String` (`List Char` where we reason
by induction), bytes as `List Nat` with each entry < 256, dicts as
insertion-ordered association lists.
-/

namespace Ampio

/-! ## Byte and string helpers -/

/-- Lowercase hexadecimal digit, as produced by Python `bytes.hex()`. -/
def hexDigitChar (n : Nat) : Char :=
  (("0123456789abcdef").toList).getD n '0'

/-- Two lowercase hex characters for one byte (`bytes.hex()` per byte). -/
def byteHex (b : Nat) : String :=
  String.mk [hexDigitChar (b / 16 % 16), hexDigitChar (b % 16)]

/-- Python `bytes.hex()`: lowercase hex of a byte sequence. -/
def bytesHex (bs : List Nat) : String :=
  String.join (bs.map byteHex)

/-- Python `int.to_bytes(4, byteorder="little")` for `n < 2^32`. -/
def natToLE4 (n : Nat) : List Nat :=
  [n % 256, n / 256 % 256, n / 65536 % 256, n / 16777216 % 256]

/-- Python `str.upper()` restricted to ASCII (all inputs here are ASCII). -/
def pyUpper (s : String) : String :=
  String.mk (s.toList.map Char.toUpper)

/-- Python `str.strip()` on a character list: drop whitespace from both ends. -/
def stripChars (l : List Char) : List Char :=
  ((l.dropWhile Char.isWhitespace).reverse.dropWhile Char.isWhitespace).reverse

/-- Python `str.strip()`. -/
def pyStrip (s : String) : String :=
  String.mk (stripChars s.toList)

/-! ## Base64 (Python `base64.b64decode` / `b64encode`)

`b64decode` with `validate=False` (the default) discards characters outside
the alphabet and `=`; after that the length must be a multiple of four and
`=` may only pad the tail.  We model the decode on well-formed inputs and
return `none` where CPython raises `binascii.Error`. -/

/-- Value of one base64 alphabet character, `none` for non-alphabet. -/
def b64Val (c : Char) : Option Nat :=
  if 'A' ≤ c ∧ c ≤ 'Z' then some (c.toNat - 'A'.toNat)
  else if 'a' ≤ c ∧ c ≤ 'z' then some (c.toNat - 'a'.toNat + 26)
  else if '0' ≤ c ∧ c ≤ '9' then some (c.toNat - '0'.toNat + 52)
  else if c = '+' then some 62
  else if c = '/' then some 63
  else none

/-- Reassemble bytes from 6-bit groups; `none` on a lone trailing sextet
(CPython: `binascii.Error: Invalid base64-encoded string`). -/
def bytesOfSextets : List Nat → Option (List Nat)
  | [] => some []
  | [_] => none
  | [a, b] => some [a * 4 + b / 16]
  | [a, b, c] => some [a * 4 + b / 16, b % 16 * 16 + c / 4]
  | a :: b :: c :: d :: rest =>
    (bytesOfSextets rest).map
      (fun tl => (a * 4 + b / 16) :: (b % 16 * 16 + c / 4) :: (c % 4 * 64 + d) :: tl)

/-- Python `base64.b64decode(value)`; `none` models `binascii.Error`. -/
def b64decodeBytes (s : String) : Option (List Nat) :=
  let kept := s.toList.filter (fun c => (b64Val c).isSome ∨ c = '=')
  if kept.length % 4 = 0 then
    bytesOfSextets ((kept.takeWhile (fun c => c ≠ '=')).filterMap b64Val)
  else none

/-- Value → base64 character (encode side). -/
def b64Char (n : Nat) : Char :=
  (("ABCDEFGHIJKLMNOPQRSTUVWXYZabcdefghijklmnopqrstuvwxyz0123456789+/").toList).getD n 'A'

/-- Sextets (with `=` padding) for a byte list. -/
def sextetsOfBytes : List Nat → List Char
  | [] => []
  | [a] => [b64Char (a / 4), b64Char (a % 4 * 16), '=', '=']
  | [a, b] => [b64Char (a / 4), b64Char (a % 4 * 16 + b / 16), b64Char (b % 16 * 4), '=']
  | a :: b :: c :: rest =>
    b64Char (a / 4) :: b64Char (a % 4 * 16 + b / 16) ::
      b64Char (b % 16 * 4 + c / 64) :: b64Char (c % 64) :: sextetsOfBytes rest

/-! ## UTF-8 and cp1254 decoding (Python `bytes.decode`) -/

/-- Is a UTF-8 continuation byte. -/
def isCont (x : Nat) : Bool :=
  decide (0x80 ≤ x) && decide (x < 0xC0)

/-- Strict UTF-8 decoding exactly as CPython `bytes.decode("utf-8")`:
rejects stray continuation bytes, overlong forms, surrogates and
code points above `0x10FFFF`.  `none` models `UnicodeDecodeError`. -/
def utf8Decode : List Nat → Option (List Char)
  | [] => some []
  | b :: bs =>
    if b < 0x80 then
      (utf8Decode bs).map (fun cs => Char.ofNat b :: cs)
    else if b < 0xC2 then none
    else if b < 0xE0 then
      match bs with
      | b2 :: rest =>
        if isCont b2 then
          (utf8Decode rest).map (fun cs => Char.ofNat ((b - 0xC0) * 64 + (b2 - 0x80)) :: cs)
        else none
      | [] => none
    else if b < 0xF0 then
      match bs with
      | b2 :: b3 :: rest =>
        let okB2 : Bool :=
          if b = 0xE0 then decide (0xA0 ≤ b2) && decide (b2 < 0xC0)
          else if b = 0xED then decide (0x80 ≤ b2) && decide (b2 < 0xA0)
          else isCont b2
        if okB2 && isCont b3 then
          (utf8Decode rest).map
            (fun cs =>
              Char.ofNat ((b - 0xE0) * 4096 + (b2 - 0x80) * 64 + (b3 - 0x80)) :: cs)
        else none
      | _ => none
    else if b < 0xF5 then
      match bs with
      | b2 :: b3 :: b4 :: rest =>
        let okB2 : Bool :=
          if b = 0xF0 then decide (0x90 ≤ b2) && decide (b2 < 0xC0)
          else if b = 0xF4 then decide (0x80 ≤ b2) && decide (b2 < 0x90)
          else isCont b2
        if okB2 && isCont b3 && isCont b4 then
          (utf8Decode rest).map
            (fun cs =>
              Char.ofNat
                ((b - 0xF0) * 262144 + (b2 - 0x80) * 4096 + (b3 - 0x80) * 64 + (b4 - 0x80)) :: cs)
        else none
      | _ => none
    else none

/-- One byte of Windows-1254 (Turkish); `none` for the seven undefined
bytes, where CPython `bytes.decode("cp1254")` raises. -/
def cp1254Char (b : Nat) : Option Char :=
  if b < 0x80 then some (Char.ofNat b)
  else if b = 0x80 then some (Char.ofNat 0x20AC)
  else if b = 0x82 then some (Char.ofNat 0x201A)
  else if b = 0x83 then some (Char.ofNat 0x0192)
  else if b = 0x84 then some (Char.ofNat 0x201E)
  else if b = 0x85 then some (Char.ofNat 0x2026)
  else if b = 0x86 then some (Char.ofNat 0x2020)
  else if b = 0x87 then some (Char.ofNat 0x2021)
  else if b = 0x88 then some (Char.ofNat 0x02C6)
  else if b = 0x89 then some (Char.ofNat 0x2030)
  else if b = 0x8A then some (Char.ofNat 0x0160)
  else if b = 0x8B then some (Char.ofNat 0x2039)
  else if b = 0x8C then some (Char.ofNat 0x0152)
  else if b = 0x91 then some (Char.ofNat 0x2018)
  else if b = 0x92 then some (Char.ofNat 0x2019)
  else if b = 0x93 then some (Char.ofNat 0x201C)
  else if b = 0x94 then some (Char.ofNat 0x201D)
  else if b = 0x95 then some (Char.ofNat 0x2022)
  else if b = 0x96 then some (Char.ofNat 0x2013)
  else if b = 0x97 then some (Char.ofNat 0x2014)
  else if b = 0x98 then some (Char.ofNat 0x02DC)
  else if b = 0x99 then some (Char.ofNat 0x2122)
  else if b = 0x9A then some (Char.ofNat 0x0161)
  else if b = 0x9B then some (Char.ofNat 0x203A)
  else if b = 0x9C then some (Char.ofNat 0x0153)
  else if b = 0x9F then some (Char.ofNat 0x0178)
  else if b = 0xD0 then some (Char.ofNat 0x011E)
  else if b = 0xDD then some (Char.ofNat 0x0130)
  else if b = 0xDE then some (Char.ofNat 0x015E)
  else if b = 0xF0 then some (Char.ofNat 0x011F)
  else if b = 0xFD then some (Char.ofNat 0x0131)
  else if b = 0xFE then some (Char.ofNat 0x015F)
  else if 0xA0 ≤ b ∧ b ≤ 0xFF then some (Char.ofNat b)
  else none

/-- CPython `bytes.decode("cp1254")`. -/
def cp1254Decode (bs : List Nat) : Option (List Char) :=
  bs.mapM cp1254Char

/-! ## `models.base64decode` / `models.base64encode` -/

/-- `models.base64decode`: base64-decode, decode the bytes as UTF-8, and on
`UnicodeDecodeError` decode the same bytes as cp1254; strip the result in
both branches.  `none` models an uncaught exception (`binascii.Error`, or a
cp1254 failure, which the `except UnicodeDecodeError` clause does not
catch). -/
def base64decode (value : String) : Option String :=
  match b64decodeBytes value with
  | none => none
  | some bytes =>
    match utf8Decode bytes with
    | some cs => some (pyStrip (String.mk cs))
    | none => (cp1254Decode bytes).map (fun cs => pyStrip (String.mk cs))

/-- `models.base64encode` (returns the base64 text; inputs here are ASCII,
which UTF-8 encodes byte-for-byte). -/
def base64encode (value : String) : String :=
  String.mk (sextetsOfBytes (value.toList.map Char.toNat))

/-! ## `models.DEVICE_CLASSES` and `models.ItemName` -/

/-- The fixed prefix-to-device-class table `models.DEVICE_CLASSES`. -/
def DEVICE_CLASSES : List (String × String) :=
  [("B", "battery"), ("BC", "battery_charging"), ("C", "cold"),
   ("CO", "connectivity"), ("D", "door"), ("GD", "garage_door"),
   ("GA", "gas"), ("HE", "heat"), ("L", "light"), ("LO", "lock"),
   ("MI", "moisture"), ("M", "motion"), ("MV", "moving"),
   ("OC", "occupancy"), ("O", "opening"), ("P", "plug"), ("PW", "power"),
   ("PR", "presence"), ("PB", "problem"), ("S", "safety"), ("SO", "sound"),
   ("V", "vibration"), ("W", "window"), ("OU", "outlet"),
   ("T", "temperature"), ("H", "humidity"), ("I", "illuminance"),
   ("SS", "signal_strength"), ("PS", "pressure"), ("TS", "timestamp"),
   ("VA", "valve"), ("G", "garage"), ("BL", "blind")]

/-- Python `d.split(":")` on a character list: always returns at least one
part; `"".split(":") == [""]`. -/
def splitOnColon : List Char → List (List Char)
  | [] => [[]]
  | c :: cs =>
    if c = ':' then [] :: splitOnColon cs
    else
      match splitOnColon cs with
      | [] => [[c]]
      | p :: ps => (c :: p) :: ps

theorem splitOnColon_ne_nil (l : List Char) : splitOnColon l ≠ [] := by
  cases l with
  | nil => simp [splitOnColon]
  | cons c cs =>
    simp only [splitOnColon]
    split
    · simp
    · split <;> simp

/-- `ItemName.extract_name`: `parts = d.split(":")`;
if more than one part, `"".join(parts[1:])`, else `d`. -/
def extract_name (d : String) : String :=
  let parts := splitOnColon d.toList
  if parts.length > 1 then String.mk (parts.drop 1).flatten else d

/-- `ItemName.extract_device_class`: look the text before the first colon
up in `DEVICE_CLASSES`; `None` when the string has no colon or the prefix
is not in the table. -/
def extract_device_class (d : String) : Option String :=
  match splitOnColon d.toList with
  | p :: _ :: _ => DEVICE_CLASSES.lookup (String.mk p)
  | _ => none

/-- `models.ItemName` after its attrs converters and defaults ran:
`d` is the base64-decoded string, `name` and `device_class` the computed
defaults. -/
structure ItemName where
  d : String
  name : String
  device_class : Option String
deriving DecidableEq, Repr

/-- Construct an `ItemName` from the already-decoded string (the attrs
defaults `extract_name` / `extract_device_class`). -/
def mkItemName (d : String) : ItemName :=
  { d := d, name := extract_name d, device_class := extract_device_class d }

/-- Constructing `ItemName(raw)` from the wire: the converter
`base64decode` runs first; `none` models a decode exception. -/
def itemNameFromB64 (raw : String) : Option ItemName :=
  (base64decode raw).map mkItemName

/-- `ItemName(base64encode(s))` as used inside `models.py` for synthetic
names: encode then decode through the converter.  On the ASCII literals the
source uses, the round trip never fails; the fallback keeps it total. -/
def itemNameRoundtrip (s : String) : ItemName :=
  (itemNameFromB64 (base64encode s)).getD (mkItemName "")

/-! ## `models.TYPE_CODES` and the module descriptor -/

/-- `models.TYPE_CODES`. -/
def TYPE_CODES : List (Nat × String) :=
  [(44, "MSENS"), (3, "MROL-4s"), (4, "MPR-8s"), (5, "MDIM-8s"),
   (8, "MDOT-4"), (10, "MSERV-3s"), (11, "MDOT-9"), (12, "MRGBu-1"),
   (17, "MLED-1"), (22, "MRT-16s"), (25, "MCON"), (26, "MOC-4"),
   (27, "MDOT-15LCD"), (33, "MDOT-2"), (34, "METEO-1s"), (38, "MRDN-1s"),
   (49, "MWRC")]

/-- The per-item-type name tables of a module
(`AmpioModuleInfo.names : Dict[ItemTypes, Dict[int, ItemName]]`),
restricted to the item types `update_configs` reads; each table is an
insertion-ordered association list (Python dict). -/
structure Names where
  ow : List (Nat × ItemName) := []
  binaryFlag : List (Nat × ItemName) := []
  binaryInput254 : List (Nat × ItemName) := []
  binaryInput509 : List (Nat × ItemName) := []
  binaryOutput254 : List (Nat × ItemName) := []
  analogOutput254 : List (Nat × ItemName) := []
deriving DecidableEq, Repr

/-- `models.AmpioModuleInfo` after its attrs converters ran (`mac` and
`user_mac` uppercased, `name` base64-decoded). -/
structure Module where
  mac : String
  user_mac : String
  code : Nat
  pcb : Nat
  software : Nat
  protocol : Nat
  date_prod : String
  bi : Nat
  bo : Nat
  ai : Nat
  ao : Nat
  flags : Nat
  name : String
  names : Names := {}
deriving DecidableEq, Repr

/-- `AmpioModuleInfo.part_number`: `TYPE_CODES.get(code, code)` (an unknown
code renders as its decimal digits, as the f-string would). -/
def Module.part_number (m : Module) : String :=
  (TYPE_CODES.lookup m.code).getD (toString m.code)

/-- `AmpioModuleInfo.model`. -/
def Module.model (m : Module) : String :=
  m.part_number ++ " [" ++ pyUpper m.mac ++ "/" ++ pyUpper m.user_mac ++ "]"

/-- The subset of `AmpioModuleInfo.as_hass_device()` that entity configs
embed (identity, name, model, software version). -/
structure HassDevice where
  userMac : String
  name : String
  model : String
  swVersion : Nat
deriving DecidableEq, Repr

/-- `AmpioModuleInfo.as_hass_device()`. -/
def Module.as_hass_device (m : Module) : HassDevice :=
  { userMac := m.user_mac, name := m.name, model := m.model,
    swVersion := m.software }

/-! ## Entity configs and the per-kind builders -/

/-- One entity config dict (`Ampio*Config.config`): absent dict keys are
`none`. -/
structure Config where
  uniqueId : String
  name : String
  friendlyName : String
  stateTopic : Option String := none
  commandTopic : Option String := none
  brightnessCommandTopic : Option String := none
  brightnessStateTopic : Option String := none
  rgbStateTopic : Option String := none
  rgbCommandTopic : Option String := none
  whiteValueStateTopic : Option String := none
  whiteValueCommandTopic : Option String := none
  closingStateTopic : Option String := none
  openingStateTopic : Option String := none
  rawTopic : Option String := none
  tiltPositionTopic : Option String := none
  unitOfMeasurement : Option String := none
  deviceClass : Option String := none
  icon : Option String := none
  device : HassDevice
deriving DecidableEq, Repr

/-- Python `if device_class: config[...] = device_class`: the key is set
only for a truthy value (neither `None` nor the empty string). -/
def pyTruthyStr : Option String → Option String
  | some s => if s = "" then none else some s
  | none => none

/-- `AmpioTempSensorConfig.from_ampio_device`. -/
def AmpioTempSensorConfig.from_ampio_device (m : Module) (item : ItemName)
    (index : Nat) : Option Config :=
  let mac := m.user_mac
  let nm := if item.name = "" then "Temperature " ++ m.name else item.name
  some
    { uniqueId := "ampio-" ++ mac ++ "-t" ++ toString index,
      name := mac ++ "-t" ++ toString index,
      friendlyName := nm,
      unitOfMeasurement := some "°C",
      deviceClass := some "temperature",
      stateTopic := some ("ampio/from/" ++ mac ++ "/state/t/" ++ toString index),
      device := m.as_hass_device }

/-- `AmpioHumiditySensorConfig.from_ampio_device`. -/
def AmpioHumiditySensorConfig.from_ampio_device (m : Module) (_item : ItemName)
    (index : Nat) : Option Config :=
  let mac := m.user_mac
  let st := if m.pcb < 3 then "ampio/from/" ++ mac ++ "/state/au32/0"
            else "ampio/from/" ++ mac ++ "/state/au16l/1"
  some
    { uniqueId := "ampio-" ++ mac ++ "-h" ++ toString index,
      name := mac ++ "-h" ++ toString index,
      friendlyName := "Humidity " ++ m.name,
      unitOfMeasurement := some "%",
      deviceClass := some "humidity",
      stateTopic := some st,
      device := m.as_hass_device }

/-- `AmpioPressureSensorConfig.from_ampio_device`. -/
def AmpioPressureSensorConfig.from_ampio_device (m : Module) (_item : ItemName)
    (index : Nat) : Option Config :=
  let mac := m.user_mac
  let st := if m.pcb < 3 then "ampio/from/" ++ mac ++ "/state/au32/1"
            else "ampio/from/" ++ mac ++ "/state/au16l/6"
  some
    { uniqueId := "ampio-" ++ mac ++ "-ps" ++ toString index,
      name := mac ++ "-ps" ++ toString index,
      friendlyName := "Pressure " ++ m.name,
      deviceClass := some "pressure",
      stateTopic := some st,
      unitOfMeasurement := some "hPa",
      device := m.as_hass_device }

/-- `AmpioNoiseSensorConfig.from_ampio_device` (`None` on MSENS-1 boards). -/
def AmpioNoiseSensorConfig.from_ampio_device (m : Module) (_item : ItemName)
    (index : Nat) : Option Config :=
  if m.pcb < 3 then none
  else
    let mac := m.user_mac
    some
      { uniqueId := "ampio-" ++ mac ++ "-n" ++ toString index,
        name := mac ++ "-n" ++ toString index,
        friendlyName := "Noise " ++ m.name,
        deviceClass := some "signal_strength",
        stateTopic := some ("ampio/from/" ++ mac ++ "/state/au16l/3"),
        unitOfMeasurement := some "dB",
        device := m.as_hass_device }

/-- `AmpioIlluminanceSensorConfig.from_ampio_device`. -/
def AmpioIlluminanceSensorConfig.from_ampio_device (m : Module) (_item : ItemName)
    (index : Nat) : Option Config :=
  if m.pcb < 3 then none
  else
    let mac := m.user_mac
    some
      { uniqueId := "ampio-" ++ mac ++ "-i" ++ toString index,
        name := mac ++ "-i" ++ toString index,
        friendlyName := "Illuminance " ++ m.name,
        deviceClass := some "illuminance",
        stateTopic := some ("ampio/from/" ++ mac ++ "/state/au16l/4"),
        unitOfMeasurement := some "lx",
        device := m.as_hass_device }

/-- `AmpioAirqualitySensorConfig.from_ampio_device`. -/
def AmpioAirqualitySensorConfig.from_ampio_device (m : Module) (_item : ItemName)
    (index : Nat) : Option Config :=
  if m.pcb < 3 then none
  else
    let mac := m.user_mac
    some
      { uniqueId := "ampio-" ++ mac ++ "-aq" ++ toString index,
        name := mac ++ "-aq" ++ toString index,
        friendlyName := "Air Quality " ++ m.name,
        stateTopic := some ("ampio/from/" ++ mac ++ "/state/au16l/5"),
        unitOfMeasurement := none,
        device := m.as_hass_device }

/-- `AmpioTouchSensorConfig.from_ampio_device`. -/
def AmpioTouchSensorConfig.from_ampio_device (m : Module) (item : ItemName)
    (index : Nat) : Option Config :=
  let mac := m.user_mac
  some
    { uniqueId := "ampio-" ++ mac ++ "-i" ++ toString index,
      name := mac ++ "-i" ++ toString index,
      friendlyName := item.name,
      stateTopic := some ("ampio/from/" ++ mac ++ "/state/i/" ++ toString index),
      device := m.as_hass_device,
      deviceClass := some "opening" }

/-- `AmpioBinarySensorExtendedConfig.from_ampio_device`. -/
def AmpioBinarySensorExtendedConfig.from_ampio_device (m : Module)
    (item : ItemName) (index : Nat) : Option Config :=
  let mac := m.user_mac
  some
    { uniqueId := "ampio-" ++ mac ++ "-bi" ++ toString index,
      name := mac ++ "-bi" ++ toString index,
      friendlyName := item.name,
      stateTopic := some ("ampio/from/" ++ mac ++ "/state/bi/" ++ toString index),
      device := m.as_hass_device,
      deviceClass := pyTruthyStr item.device_class }

/-- `AmpioBinarySensorConfig.from_ampio_device`. -/
def AmpioBinarySensorConfig.from_ampio_device (m : Module) (item : ItemName)
    (index : Nat) : Option Config :=
  let mac := m.user_mac
  some
    { uniqueId := "ampio-" ++ mac ++ "-i" ++ toString index,
      name := mac ++ "-i" ++ toString index,
      friendlyName := item.name,
      stateTopic := some ("ampio/from/" ++ mac ++ "/state/i/" ++ toString index),
      device := m.as_hass_device,
      deviceClass := pyTruthyStr item.device_class }

/-- `AmpioDimmableLightConfig.from_ampio_device`. -/
def AmpioDimmableLightConfig.from_ampio_device (m : Module) (item : ItemName)
    (index : Nat) : Option Config :=
  let mac := m.user_mac
  some
    { uniqueId := "ampio-" ++ mac ++ "-a" ++ toString index,
      name := mac ++ "-a" ++ toString index,
      friendlyName := item.name,
      stateTopic := some ("ampio/from/" ++ mac ++ "/state/o/" ++ toString index),
      commandTopic := some ("ampio/to/" ++ mac ++ "/o/" ++ toString index ++ "/cmd"),
      brightnessCommandTopic := some ("ampio/to/" ++ mac ++ "/o/" ++ toString index ++ "/cmd"),
      brightnessStateTopic := some ("ampio/from/" ++ mac ++ "/state/a/" ++ toString index),
      device := m.as_hass_device,
      deviceClass := pyTruthyStr item.device_class,
      icon := if m.code = 17 then some "mdi:spotlight" else none }

/-- `AmpioLightConfig.from_ampio_device`. -/
def AmpioLightConfig.from_ampio_device (m : Module) (item : ItemName)
    (index : Nat) : Option Config :=
  let mac := m.user_mac
  some
    { uniqueId := "ampio-" ++ mac ++ "-a" ++ toString index,
      name := mac ++ "-a" ++ toString index,
      friendlyName := item.name,
      stateTopic := some ("ampio/from/" ++ mac ++ "/state/o/" ++ toString index),
      commandTopic := some ("ampio/to/" ++ mac ++ "/o/" ++ toString index ++ "/cmd"),
      device := m.as_hass_device,
      deviceClass := pyTruthyStr item.device_class }

/-- `AmpioRGBLightConfig.from_ampio_device` (ignores its item, forces
`index = 1`). -/
def AmpioRGBLightConfig.from_ampio_device (m : Module) : Option Config :=
  let mac := m.user_mac
  let nm := if m.name = "" then "RGBW" else m.name
  some
    { uniqueId := "ampio-" ++ mac ++ "-rgbw1",
      name := mac ++ "-rgbw1",
      friendlyName := nm,
      rgbStateTopic := some ("ampio/from/" ++ mac ++ "/state/rgbw/1"),
      rgbCommandTopic := some ("ampio/to/" ++ mac ++ "/rgbw/1/cmd"),
      whiteValueStateTopic := some ("ampio/from/" ++ mac ++ "/state/a/4"),
      whiteValueCommandTopic := some ("ampio/to/" ++ mac ++ "/o/4/cmd"),
      device := m.as_hass_device }

/-- `AmpioSwitchConfig.from_ampio_device`. -/
def AmpioSwitchConfig.from_ampio_device (m : Module) (item : ItemName)
    (index : Nat) : Option Config :=
  let mac := m.user_mac
  some
    { uniqueId := "ampio-" ++ mac ++ "-bo" ++ toString index,
      name := mac ++ "-bo" ++ toString index,
      friendlyName := item.name,
      stateTopic := some ("ampio/from/" ++ mac ++ "/state/o/" ++ toString index),
      commandTopic := some ("ampio/to/" ++ mac ++ "/o/" ++ toString index ++ "/cmd"),
      device := m.as_hass_device,
      deviceClass := pyTruthyStr item.device_class,
      icon := if item.device_class = some "heat" then some "mdi:radiator" else none }

/-- `AmpioFlagConfig.from_ampio_device`. -/
def AmpioFlagConfig.from_ampio_device (m : Module) (item : ItemName)
    (index : Nat) : Option Config :=
  let mac := m.user_mac
  some
    { uniqueId := "ampio-" ++ mac ++ "-f" ++ toString index,
      name := mac ++ "-f" ++ toString index,
      friendlyName := item.name,
      stateTopic := some ("ampio/from/" ++ mac ++ "/state/f/" ++ toString index),
      commandTopic := some ("ampio/to/" ++ mac ++ "/f/" ++ toString index ++ "/cmd"),
      device := m.as_hass_device,
      deviceClass := pyTruthyStr item.device_class,
      icon := some "mdi:flag" }

/-- `AmpioCoverConfig.from_ampio_device`. -/
def AmpioCoverConfig.from_ampio_device (m : Module) (item : ItemName)
    (index : Nat) : Option Config :=
  let mac := m.user_mac
  let dc := item.device_class.getD "shutter"
  some
    { uniqueId := "ampio-" ++ mac ++ "-co" ++ toString index,
      name := mac ++ "-co" ++ toString index,
      friendlyName := item.name,
      stateTopic := some ("ampio/from/" ++ mac ++ "/state/a/" ++ toString index),
      closingStateTopic :=
        some ("ampio/from/" ++ mac ++ "/state/o/" ++ toString (2 * (index - 1) + 1)),
      openingStateTopic :=
        some ("ampio/from/" ++ mac ++ "/state/o/" ++ toString (2 * index)),
      commandTopic := some ("ampio/to/" ++ mac ++ "/o/" ++ toString index ++ "/cmd"),
      rawTopic := some ("ampio/to/" ++ mac ++ "/raw"),
      device := m.as_hass_device,
      tiltPositionTopic :=
        if dc ≠ "garage" ∧ dc ≠ "valve" then
          some ("ampio/from/" ++ mac ++ "/state/a/" ++ toString (6 + index))
        else none,
      deviceClass := if dc = "" then none else some dc,
      icon := if dc = "valve" then some "mdi:valve" else none }

/-- `AmpioSatelConfig.from_ampio_device`. -/
def AmpioSatelConfig.from_ampio_device (m : Module) (item : ItemName)
    (index : Nat) : Option Config :=
  let mac := m.user_mac
  some
    { uniqueId := "ampio-" ++ mac ++ "-z" ++ toString index,
      name := mac ++ "-z" ++ toString index,
      friendlyName := item.name,
      stateTopic := some ("ampio/from/" ++ mac ++ "/state/a/" ++ toString index),
      rawTopic := some ("ampio/to/" ++ mac ++ "/raw"),
      device := m.as_hass_device,
      deviceClass := pyTruthyStr item.device_class }

/-! ## `update_configs`: per-module-type decoding -/

/-- `AmpioModuleInfo.configs`: the per-platform-component config lists
(`defaultdict(list)`); absent components are `[]`. -/
structure Configs where
  switch : List Config := []
  sensor : List Config := []
  binary_sensor : List Config := []
  light : List Config := []
  cover : List Config := []
  alarm_control_panel : List Config := []
deriving DecidableEq, Repr

/-- `AmpioModuleInfo.update_configs` (the base class): switches from
binary flags, temperature sensors from one-wire items; the `index + 1`
turns the 0-based wire index into the 1-based external index. -/
def AmpioModuleInfo.update_configs (m : Module) : Configs :=
  { switch := m.names.binaryFlag.filterMap
      (fun p => AmpioFlagConfig.from_ampio_device m p.2 (p.1 + 1)),
    sensor := m.names.ow.filterMap
      (fun p => AmpioTempSensorConfig.from_ampio_device m p.2 (p.1 + 1)) }

/-- `MSENSModuleInfo.update_configs`. -/
def MSENSModuleInfo.update_configs (m : Module) : Configs :=
  let base := AmpioModuleInfo.update_configs m
  { base with
    sensor := base.sensor ++
      [AmpioTempSensorConfig.from_ampio_device m (itemNameRoundtrip "T:Temperature") 1,
       AmpioHumiditySensorConfig.from_ampio_device m (itemNameRoundtrip "HU:Humidity") 1,
       AmpioPressureSensorConfig.from_ampio_device m (itemNameRoundtrip "OS:Pressure") 1,
       AmpioNoiseSensorConfig.from_ampio_device m (itemNameRoundtrip "SS:Noise") 1,
       AmpioIlluminanceSensorConfig.from_ampio_device m (itemNameRoundtrip "I:Illuminance") 1,
       AmpioAirqualitySensorConfig.from_ampio_device m (itemNameRoundtrip "Air Quality") 1
      ].filterMap id }

/-- `MCONModuleInfo.update_configs`: only active for INTEGRA firmware
(`software % 100 == 1`); note the `index + 255` on `BinaryInput509`
items, against `index + 1` everywhere else. -/
def MCONModuleInfo.update_configs (m : Module) : Configs :=
  let base := AmpioModuleInfo.update_configs m
  if m.software % 100 = 1 then
    { base with
      binary_sensor := base.binary_sensor
        ++ m.names.binaryInput254.filterMap
            (fun p => AmpioBinarySensorExtendedConfig.from_ampio_device m p.2 (p.1 + 1))
        ++ m.names.binaryInput509.filterMap
            (fun p => AmpioBinarySensorExtendedConfig.from_ampio_device m p.2 (p.1 + 255)),
      alarm_control_panel := base.alarm_control_panel
        ++ m.names.analogOutput254.filterMap
            (fun p => AmpioSatelConfig.from_ampio_device m p.2 (p.1 + 1)) }
  else base

/-- `MLED1ModuleInfo.update_configs`. -/
def MLED1ModuleInfo.update_configs (m : Module) : Configs :=
  let base := AmpioModuleInfo.update_configs m
  { base with
    light := base.light ++ m.names.analogOutput254.filterMap
      (fun p => AmpioDimmableLightConfig.from_ampio_device m p.2 (p.1 + 1)) }

/-- `MDIM8sModuleInfo.update_configs`. -/
def MDIM8sModuleInfo.update_configs (m : Module) : Configs :=
  let base := AmpioModuleInfo.update_configs m
  { base with
    light := base.light ++ m.names.binaryOutput254.filterMap
      (fun p => AmpioDimmableLightConfig.from_ampio_device m p.2 (p.1 + 1)) }

/-- `MOC4ModuleInfo.update_configs`. -/
def MOC4ModuleInfo.update_configs (m : Module) : Configs :=
  let base := AmpioModuleInfo.update_configs m
  { base with
    light := base.light ++ m.names.binaryOutput254.filterMap
      (fun p => AmpioDimmableLightConfig.from_ampio_device m p.2 (p.1 + 1)) }

/-- `MPR8sModuleInfo.update_configs`: binary outputs become lights when the
item's device class is `light`, switches otherwise. -/
def MPR8sModuleInfo.update_configs (m : Module) : Configs :=
  let base := AmpioModuleInfo.update_configs m
  { base with
    light := base.light ++ m.names.binaryOutput254.filterMap
      (fun p =>
        if p.2.device_class = some "light" then
          AmpioLightConfig.from_ampio_device m p.2 (p.1 + 1)
        else none),
    switch := base.switch ++ m.names.binaryOutput254.filterMap
      (fun p =>
        if p.2.device_class = some "light" then none
        else AmpioSwitchConfig.from_ampio_device m p.2 (p.1 + 1)),
    binary_sensor := base.binary_sensor ++ m.names.binaryInput254.filterMap
      (fun p => AmpioBinarySensorConfig.from_ampio_device m p.2 (p.1 + 1)) }

/-- `MDOTModuleInfo.update_configs`: one touch binary sensor per physical
button, whether or not the button has a wire-supplied name. -/
def MDOTModuleInfo.update_configs (buttons : Nat) (m : Module) : Configs :=
  let base := AmpioModuleInfo.update_configs m
  { base with
    binary_sensor := base.binary_sensor ++ (List.range buttons).filterMap
      (fun i =>
        let item :=
          match m.names.binaryInput254.lookup i with
          | some it => it
          | none => itemNameRoundtrip (m.name ++ " Touch")
        AmpioTouchSensorConfig.from_ampio_device m item (i + 1)) }

/-- `MRGBu1ModuleInfo.update_configs`. -/
def MRGBu1ModuleInfo.update_configs (m : Module) : Configs :=
  let base := AmpioModuleInfo.update_configs m
  { base with
    light := base.light ++ [AmpioRGBLightConfig.from_ampio_device m].filterMap id }

/-- `MSERV3sModuleInfo.update_configs`. -/
def MSERV3sModuleInfo.update_configs (m : Module) : Configs :=
  let base := AmpioModuleInfo.update_configs m
  { base with
    switch := base.switch ++ m.names.binaryOutput254.filterMap
      (fun p => AmpioSwitchConfig.from_ampio_device m p.2 (p.1 + 1)),
    binary_sensor := base.binary_sensor ++ m.names.binaryInput254.filterMap
      (fun p => AmpioBinarySensorConfig.from_ampio_device m p.2 (p.1 + 1)) }

/-- `MROL4sModuleInfo.update_configs`. -/
def MROL4sModuleInfo.update_configs (m : Module) : Configs :=
  let base := AmpioModuleInfo.update_configs m
  { base with
    cover := base.cover ++ m.names.binaryOutput254.filterMap
      (fun p => AmpioCoverConfig.from_ampio_device m p.2 (p.1 + 1)),
    binary_sensor := base.binary_sensor ++ m.names.binaryInput254.filterMap
      (fun p => AmpioBinarySensorConfig.from_ampio_device m p.2 (p.1 + 1)) }

/-- The `CLASS_FACTORY` dispatch followed by the chosen class's
`update_configs`: `CLASS_FACTORY.get(typ, AmpioModuleInfo)` keyed on the
module type code. -/
def update_configs (m : Module) : Configs :=
  if m.code = 44 then MSENSModuleInfo.update_configs m
  else if m.code = 25 then MCONModuleInfo.update_configs m
  else if m.code = 17 then MLED1ModuleInfo.update_configs m
  else if m.code = 5 then MDIM8sModuleInfo.update_configs m
  else if m.code = 26 then MOC4ModuleInfo.update_configs m
  else if m.code = 4 then MPR8sModuleInfo.update_configs m
  else if m.code = 33 then MDOTModuleInfo.update_configs 2 m
  else if m.code = 8 then MDOTModuleInfo.update_configs 4 m
  else if m.code = 11 then MDOTModuleInfo.update_configs 9 m
  else if m.code = 27 then MDOTModuleInfo.update_configs 15 m
  else if m.code = 12 then MRGBu1ModuleInfo.update_configs m
  else if m.code = 10 then MSERV3sModuleInfo.update_configs m
  else if m.code = 3 then MROL4sModuleInfo.update_configs m
  else AmpioModuleInfo.update_configs m

/-! ## Alarm commands (`alarm_control_panel.AmpioSatelAlarmControlPanel`) -/

/-- The zone bit mask computed in `AmpioSatelAlarmControlPanel.__init__`:
`mask |= (0x01 << (zone - 1)) & 0xFFFFFFFF` over the zone collection. -/
def zonesMask (zones : List Nat) : Nat :=
  zones.foldl (fun mask zone => mask ||| ((1 <<< (zone - 1)) &&& 0xFFFFFFFF)) 0

/-- `mask.to_bytes(4, byteorder="little").hex()`. -/
def zonesCmdData (zones : List Nat) : String :=
  bytesHex (natToLE4 (zonesMask zones))

/-- `async_alarm_arm_home`: the payload published to the raw topic. -/
def async_alarm_arm_home (homeZones : List Nat) : String :=
  "1E0080" ++ zonesCmdData homeZones

/-- `async_alarm_arm_away`. -/
def async_alarm_arm_away (awayZones : List Nat) : String :=
  "1E0080" ++ zonesCmdData awayZones

/-- `async_alarm_disarm`, first publish (over `home_zones | away_zones`). -/
def async_alarm_disarm (allZones : List Nat) : String :=
  "1E0084" ++ zonesCmdData allZones

/-- `async_alarm_disarm`, the delayed clear-alarm publish. -/
def alarmClearCmd (allZones : List Nat) : String :=
  "1E0085" ++ zonesCmdData allZones

/-! ## Cover commands (`cover.AmpioCover`) -/

/-- `AmpioCover.async_set_cover_position`: the hex payload published to the
raw topic (`b"\x00\x01" + mask + position + b"\x66"`). -/
def async_set_cover_position (index position : Nat) : String :=
  bytesHex [0x00, 0x01, (1 <<< (index - 1)) &&& 0xFF, position &&& 0xFF, 0x66]

/-- `AmpioCover.async_set_cover_tilt_position`
(`b"\x00\x02" + mask + position`, no trailing sentinel). -/
def async_set_cover_tilt_position (index position : Nat) : String :=
  bytesHex [0x00, 0x02, (1 <<< (index - 1)) &&& 0xFF, position &&& 0xFF]

/-! ## Discovery handlers (`discovery.py`) -/

/-- Python dict assignment on an association list: replace in place, else
append. -/
def assocSet {α : Type} : List (String × α) → String → α → List (String × α)
  | [], k, v => [(k, v)]
  | (k', v') :: rest, k, v =>
    if k' = k then (k, v) :: rest else (k', v') :: assocSet rest k v

/-- Python `del d[k]` on an association list (dict keys are unique, so
dropping every pair with the key models the deletion). -/
def assocDel {α : Type} (l : List (String × α)) (k : String) : List (String × α) :=
  l.filter (fun kv => kv.1 ≠ k)

/-- Prefix test on character lists (Python `re` anchoring on the literal
head of the pattern). -/
def charsIsPrefix : List Char → List Char → Bool
  | [], _ => true
  | _ :: _, [] => false
  | c :: cs, d :: ds => c == d && charsIsPrefix cs ds

/-- `MAC_FROM_TOPIC_RE`: `^ampio/from/(?P<mac>.*)/.*$` followed by
`.upper()` — the (greedy) mac group is everything between `ampio/from/`
and the last slash. -/
def extractMac (topic : String) : Option String :=
  if charsIsPrefix ("ampio/from/").toList topic.toList then
    let rest := topic.toList.drop 11
    if rest.contains '/' then
      some (pyUpper (String.mk ((rest.reverse.dropWhile (fun c => c ≠ '/')).drop 1).reverse))
    else none
  else none

/-- The discovery bookkeeping in `hass.data`: `DATA_AMPIO_MODULES` (the
module registry, which doubles as the pending set), `DATA_AMPIO_UNIQUE_IDS`,
the per-component entity-config lists, and how often the
"all modules discovered" load was triggered. -/
structure DiscoveryState where
  modules : List (String × Module) := []
  uniqueIds : List String := []
  dataConfigs : List (String × Config) := []
  signals : Nat := 0
deriving Repr

/-- `module.configs.items()` flattened to (component, config) pairs. -/
def componentList (c : Configs) : List (String × Config) :=
  c.switch.map (fun x => ("switch", x)) ++ c.sensor.map (fun x => ("sensor", x)) ++
    c.binary_sensor.map (fun x => ("binary_sensor", x)) ++
    c.light.map (fun x => ("light", x)) ++ c.cover.map (fun x => ("cover", x)) ++
    c.alarm_control_panel.map (fun x => ("alarm_control_panel", x))

/-- The loop in `module_names_received` over `module.configs.items()`:
append each config whose unique id was not seen yet, recording the id. -/
def addConfigs (uids : List String) (data : List (String × Config)) :
    List (String × Config) → List String × List (String × Config)
  | [] => (uids, data)
  | (comp, cfg) :: rest =>
    if cfg.uniqueId ∈ uids then addConfigs uids data rest
    else addConfigs (uids ++ [cfg.uniqueId]) (data ++ [(comp, cfg)]) rest

/-- `device_list_received` after `AmpioModuleInfo.from_topic_payload`
produced `mods`: register each module under its user MAC and publish one
name request per module; returns the new state and the published topics.
The handler never touches the unique-id set and never triggers the
"all modules discovered" load. -/
def device_list_received (st : DiscoveryState) (mods : List Module) :
    DiscoveryState × List String :=
  mods.foldl
    (fun acc m =>
      ({ acc.1 with modules := assocSet acc.1.modules m.user_mac m },
       acc.2 ++ ["ampio/to/" ++ m.user_mac ++ "/description"]))
    (st, [])

/-- `module_names_received`: extract the MAC from the topic, drop the
message when the MAC is untracked or the JSON does not parse
(`names? = none`), otherwise store the names on the module, recompute its
configs, append the unseen configs, delete the module from the registry
and, when the registry became empty, trigger the "all modules discovered"
load. -/
def module_names_received (st : DiscoveryState) (topic : String)
    (names? : Option Names) : DiscoveryState :=
  match extractMac topic with
  | none => st
  | some mac =>
    match st.modules.lookup mac with
    | none => st
    | some m =>
      match names? with
      | none => st
      | some names =>
        let m' := { m with names := names }
        let added := addConfigs st.uniqueIds st.dataConfigs
          (componentList (update_configs m'))
        let modules' := assocDel st.modules mac
        { modules := modules',
          uniqueIds := added.1,
          dataConfigs := added.2,
          signals := if modules' = [] then st.signals + 1 else st.signals }

/-! ## Subscription bookkeeping (`client.AmpioAPI`) -/

/-- `homeassistant.components.mqtt.Subscription`, an attrs value type: its
identity is the tuple (topic pattern, callback, qos, encoding).  The
callback is opaque; distinct Python callback objects get distinct
identifiers. -/
structure Subscription where
  topic : String
  callback : Nat
  qos : Nat
  encoding : Option String
deriving DecidableEq, Repr

/-- The closure returned by `AmpioAPI.async_subscribe` for subscription
`s`, acting on the current subscription list: `none` models the
`HomeAssistantError("Can't remove subscription twice")`; otherwise it
returns the new list and whether a bus-level UNSUBSCRIBE was issued
(only when connected and no other subscription references the topic). -/
def async_remove (connected : Bool) (subs : List Subscription)
    (s : Subscription) : Option (List Subscription × Bool) :=
  if s ∈ subs then
    let remaining := subs.erase s
    if remaining.any (fun other => other.topic = s.topic) then
      some (remaining, false)
    else
      some (remaining, connected)
  else none

/-! ## `validators.py` schemas over a JSON value model -/

/-- JSON values as `json.loads` produces them (numbers restricted to
integers, which is all the wire format uses). -/
inductive JVal where
  | jnull
  | jbool (b : Bool)
  | jnum (n : Int)
  | jstr (s : String)
  | jarr (elems : List JVal)
  | jobj (fields : List (String × JVal))

/-- `validators.string`: coerce to `str`, failing on `None`, lists and
dicts. -/
def stringCoerce : JVal → Option String
  | JVal.jnull => none
  | JVal.jarr _ => none
  | JVal.jobj _ => none
  | JVal.jstr s => some s
  | JVal.jnum n => some (toString n)
  | JVal.jbool b => some (if b then "True" else "False")

/-- `vol.Coerce(int)`: `int(value)` — ints pass, numeric strings parse,
bools coerce, everything else raises. -/
def coerceInt : JVal → Option Int
  | JVal.jnum n => some n
  | JVal.jstr s => s.toInt?
  | JVal.jbool b => some (if b then 1 else 0)
  | _ => none

/-- `vol.Required(k)` with `vol.Coerce(int)`. -/
def requireInt (fields : List (String × JVal)) (k : String) : Option Int :=
  (fields.lookup k).bind coerceInt

/-- `validators.ensure_list`. -/
def ensure_list : JVal → List JVal
  | JVal.jnull => []
  | JVal.jarr l => l
  | v => [v]

/-- The keys `AMPIO_DEVICE_SCHEMA` declares: note `i`, `o`, `a`, `au`,
`t` — not the `bi`/`bo`/`ai`/`ao` that `models.py` expects. -/
def AMPIO_DEVICE_KEYS : List String :=
  ["mac", "user_mac", "typ", "pcb", "soft_ver", "protocol", "date_prod",
   "i", "o", "a", "au", "t", "f", "name"]

/-- Per-key validator of `AMPIO_DEVICE_SCHEMA`: `validators.string` for
`mac`/`user_mac`/`name`, `vol.Coerce(int)` for every other declared key. -/
def deviceFieldValidator (k : String) (v : JVal) : Option JVal :=
  if k = "mac" ∨ k = "user_mac" ∨ k = "name" then
    (stringCoerce v).map JVal.jstr
  else (coerceInt v).map JVal.jnum

/-- `validators.AMPIO_DEVICE_SCHEMA`: every declared key is
`vol.Required`, and the voluptuous default `PREVENT_EXTRA` rejects any key
outside the declared set. -/
def AMPIO_DEVICE_SCHEMA (v : JVal) : Option JVal :=
  match v with
  | JVal.jobj fields =>
    if fields.all (fun kv => kv.1 ∈ AMPIO_DEVICE_KEYS) then
      (AMPIO_DEVICE_KEYS.mapM
        (fun k =>
          ((fields.lookup k).bind (deviceFieldValidator k)).map
            (fun w => (k, w)))).map JVal.jobj
    else none
  | _ => none

/-- `validators.AMPIO_DEVICES_SCHEMA`: a required int-coercible `s` and an
optional list `d` of device entries (default `[]`); extra keys — such as
`devices` — are rejected (`PREVENT_EXTRA`). -/
def AMPIO_DEVICES_SCHEMA (v : JVal) : Option JVal :=
  match v with
  | JVal.jobj fields =>
    if fields.all (fun kv => kv.1 = "s" ∨ kv.1 = "d") then
      (requireInt fields "s").bind (fun sv =>
        ((ensure_list ((fields.lookup "d").getD (JVal.jarr []))).mapM
            AMPIO_DEVICE_SCHEMA).map
          (fun devs => JVal.jobj [("s", JVal.jnum sv), ("d", JVal.jarr devs)]))
    else none
  | _ => none

/-- `AmpioModuleInfo.from_topic_payload`: validate through
`AMPIO_DEVICES_SCHEMA`, then read `validated[ATTR_DEVICES]` with
`ATTR_DEVICES = "devices"` — a key the schema never emits, so the access
raises `KeyError` (`none`).  (Building the `AmpioModuleInfo` objects from
the entries would read `device[ATTR_BI]` etc., names `validators.py` does
not even define, so we return the validated entries; the lookup fails
before any of that.) -/
def AmpioModuleInfo.from_topic_payload (payload : JVal) : Option (List JVal) :=
  match AMPIO_DEVICES_SCHEMA payload with
  | none => none
  | some (JVal.jobj fields) =>
    match fields.lookup "devices" with
    | some (JVal.jarr devs) => some devs
    | _ => none
  | some _ => none

/-! # Theorems -/

/-! ## C1: flag items decode to exactly one switch config with `f<i+1>` ids -/

/-- **C1**.  For a module (of any type code) whose resolved names contain a
single binary-flag item at logical index `i`, recomputing the configs
produces exactly one switch entity config, with unique id
`ampio-<userMac>-f<i+1>`, state topic `ampio/from/<userMac>/state/f/<i+1>`
and command topic `ampio/to/<userMac>/f/<i+1>/cmd`; for `i = 0` these are
the `f1` forms of the discovery round trip. -/
theorem C1_flag_switch_config (code : Nat) (mac nm dp : String)
    (pcb software prot biN boN aiN aoN fl i : Nat) (item : ItemName) :
    ((update_configs
        { mac := mac, user_mac := mac, code := code, pcb := pcb,
          software := software, protocol := prot, date_prod := dp, bi := biN,
          bo := boN, ai := aiN, ao := aoN, flags := fl, name := nm,
          names := { binaryFlag := [(i, item)] } }).switch.map
      (fun c => (c.uniqueId, c.stateTopic, c.commandTopic))) =
      [("ampio-" ++ mac ++ "-f" ++ toString (i + 1),
        some ("ampio/from/" ++ mac ++ "/state/f/" ++ toString (i + 1)),
        some ("ampio/to/" ++ mac ++ "/f/" ++ toString (i + 1) ++ "/cmd"))] := by
  by_cases h44 : code = 44
  case pos => subst h44; rfl
  by_cases h25 : code = 25
  case pos =>
    subst h25
    show ((MCONModuleInfo.update_configs _).switch.map _) = _
    unfold MCONModuleInfo.update_configs
    split <;> rfl
  by_cases h17 : code = 17
  case pos => subst h17; rfl
  by_cases h5 : code = 5
  case pos => subst h5; rfl
  by_cases h26 : code = 26
  case pos => subst h26; rfl
  by_cases h4 : code = 4
  case pos => subst h4; rfl
  by_cases h33 : code = 33
  case pos => subst h33; rfl
  by_cases h8 : code = 8
  case pos => subst h8; rfl
  by_cases h11 : code = 11
  case pos => subst h11; rfl
  by_cases h27 : code = 27
  case pos => subst h27; rfl
  by_cases h12 : code = 12
  case pos => subst h12; rfl
  by_cases h10 : code = 10
  case pos => subst h10; rfl
  by_cases h3 : code = 3
  case pos => subst h3; rfl
  unfold update_configs
  dsimp only
  rw [if_neg h44, if_neg h25, if_neg h17, if_neg h5, if_neg h26, if_neg h4,
    if_neg h33, if_neg h8, if_neg h11, if_neg h27, if_neg h12, if_neg h10,
    if_neg h3]
  rfl

/-! ## C2: alarm zone mask commands -/

theorem foldl_zonesMask_testBit (zones : List Nat) (m b : Nat) :
    (zones.foldl (fun mask zone => mask ||| ((1 <<< (zone - 1)) &&& 0xFFFFFFFF)) m).testBit b
      = (m.testBit b || zones.any (fun z => decide (b = z - 1) && decide (b < 32))) := by
  induction zones generalizing m with
  | nil => simp
  | cons z zs ih =>
    simp only [List.foldl_cons, ih, List.any_cons]
    have h1 : (1 <<< (z - 1)) = 2 ^ (z - 1) := by
      rw [Nat.shiftLeft_eq, one_mul]
    have h2 : (0xFFFFFFFF : Nat) = 2 ^ 32 - 1 := by norm_num
    rw [Nat.testBit_or, Nat.testBit_and, h1, h2, Nat.testBit_two_pow,
      Nat.testBit_two_pow_sub_one]
    have h3 : decide (z - 1 = b) = decide (b = z - 1) := by
      simp [eq_comm]
    rw [h3, Bool.or_assoc]

theorem foldl_zonesMask_lt (zones : List Nat) (m : Nat) (hm : m < 2 ^ 32) :
    (zones.foldl (fun mask zone => mask ||| ((1 <<< (zone - 1)) &&& 0xFFFFFFFF)) m) < 2 ^ 32 := by
  induction zones generalizing m with
  | nil => exact hm
  | cons z zs ih =>
    refine ih _ (Nat.or_lt_two_pow hm ?_)
    exact Nat.and_lt_two_pow _ (by norm_num)

/-- **C2**.  For every set of zone numbers in `[1, 32]`, the zone mask is a
32-bit value whose bit `b` is set exactly when zone `b + 1` is in the set;
each alarm command is that mask, little-endian, in lowercase hex, prefixed
with opcode `1E0080` (arm home / arm away), `1E0084` (disarm) or `1E0085`
(clear alarm); arming home over zones `{1, 3}` publishes exactly
`1E008005000000`. -/
theorem C2_alarm_zone_mask_commands (zones : List Nat)
    (h : ∀ z ∈ zones, 1 ≤ z ∧ z ≤ 32) :
    (∀ b : Nat, (zonesMask zones).testBit b = true ↔ (b + 1) ∈ zones) ∧
    zonesMask zones < 2 ^ 32 ∧
    async_alarm_arm_home zones = "1E0080" ++ bytesHex (natToLE4 (zonesMask zones)) ∧
    async_alarm_arm_away zones = "1E0080" ++ bytesHex (natToLE4 (zonesMask zones)) ∧
    async_alarm_disarm zones = "1E0084" ++ bytesHex (natToLE4 (zonesMask zones)) ∧
    alarmClearCmd zones = "1E0085" ++ bytesHex (natToLE4 (zonesMask zones)) ∧
    async_alarm_arm_home [1, 3] = "1E008005000000" := by
  refine ⟨?_, foldl_zonesMask_lt zones 0 (by norm_num), rfl, rfl, rfl, rfl, by decide⟩
  intro b
  rw [zonesMask, foldl_zonesMask_testBit]
  simp only [Nat.zero_testBit, Bool.false_or, List.any_eq_true, Bool.and_eq_true,
    decide_eq_true_eq]
  constructor
  · rintro ⟨z, hz, hb, _⟩
    have hz1 := (h z hz).1
    have : b + 1 = z := by omega
    rwa [this]
  · intro hmem
    refine ⟨b + 1, hmem, by omega, ?_⟩
    have := (h (b + 1) hmem).2
    omega

/-- Witness for C2 at zones `{1, 3}`. -/
theorem C2_alarm_zone_mask_commands_witness :
    (∀ z ∈ ([1, 3] : List Nat), 1 ≤ z ∧ z ≤ 32) ∧
    async_alarm_arm_home [1, 3] = "1E008005000000" :=
  ⟨by decide, (C2_alarm_zone_mask_commands [1, 3] (by decide)).2.2.2.2.2.2⟩

/-! ## C3: cover position and tilt commands -/

/-- **C3**.  For every cover channel index in `[1, 8]` and position in
`[0, 255]`, the set-position command is opcode `0x0001`, the mask byte
`2^(index-1)`, the position byte and the trailing sentinel `0x66`, in
lowercase hex; the set-tilt command is opcode `0x0002` with no sentinel.
Set-position 50 on index 2 publishes exactly `0001023266`. -/
theorem C3_cover_commands (index position : Nat) (h1 : 1 ≤ index)
    (h2 : index ≤ 8) (h3 : position ≤ 255) :
    async_set_cover_position index position =
      bytesHex [0x00, 0x01, 2 ^ (index - 1), position, 0x66] ∧
    async_set_cover_tilt_position index position =
      bytesHex [0x00, 0x02, 2 ^ (index - 1), position] ∧
    async_set_cover_position 2 50 = "0001023266" ∧
    async_set_cover_tilt_position 2 50 = "00020232" := by
  have hff : (0xFF : Nat) = 2 ^ 8 - 1 := by norm_num
  have hmask : (1 <<< (index - 1)) &&& 0xFF = 2 ^ (index - 1) := by
    rw [Nat.shiftLeft_eq, one_mul, hff]
    exact Nat.and_pow_two_sub_one_of_lt_two_pow
      (Nat.pow_lt_pow_right (by norm_num) (by omega))
  have hpos : position &&& 0xFF = position := by
    rw [hff]
    exact Nat.and_pow_two_sub_one_of_lt_two_pow (by omega)
  refine ⟨?_, ?_, by decide, by decide⟩
  · rw [async_set_cover_position, hmask, hpos]
  · rw [async_set_cover_tilt_position, hmask, hpos]

/-- Witness for C3 at index 2, position 50. -/
theorem C3_cover_commands_witness :
    (1 ≤ 2 ∧ 2 ≤ 8 ∧ 50 ≤ 255) ∧ async_set_cover_position 2 50 = "0001023266" :=
  ⟨by decide, (C3_cover_commands 2 50 (by decide) (by decide) (by decide)).2.2.1⟩

/-! ## C4: external indices in topics and unique ids -/

/-- An MCON (type 25) module with INTEGRA firmware and one `BinaryInput509`
item at logical index 0. -/
def c4Module : Module :=
  { mac := "1B88", user_mac := "1B88", code := 25, pcb := 1, software := 1,
    protocol := 1, date_prod := "0", bi := 0, bo := 0, ai := 0, ao := 0,
    flags := 0, name := "Integra",
    names := { binaryInput509 := [(0, mkItemName "Zone")] } }

/-- **C4, counterexample**.  `MCONModuleInfo.update_configs` maps the
`BinaryInput509` item at logical index 0 to unique id `ampio-1B88-bi255`
and state topic `ampio/from/1B88/state/bi/255` — not the
`logical index + 1` forms the claim asserts for every decoding path. -/
theorem C4_counterexample :
    ((update_configs c4Module).binary_sensor.map
      (fun c => (c.uniqueId, c.stateTopic))) =
      [("ampio-1B88-bi255", some "ampio/from/1B88/state/bi/255")] ∧
    ("ampio-1B88-bi255" : String) ≠ "ampio-1B88-bi" ++ toString (0 + 1) :=
  ⟨rfl, by decide⟩

/-- A module of the given type code with the given name tables; the
remaining descriptor fields are fixed (INTEGRA software so that the MCON
branch is active). -/
def mkTestModule (code : Nat) (mac : String) (names : Names) : Module :=
  { mac := mac, user_mac := mac, code := code, pcb := 3, software := 1,
    protocol := 1, date_prod := "0", bi := 0, bo := 0, ai := 0, ao := 0,
    flags := 0, name := "M", names := names }

/-- **C4, amended**.  Every item-driven decoding path generates topics and
unique ids from the external index `logical index + 1` — flags (`f`),
one-wire sensors (`t`), MCON `BinaryInput254` (`bi`), MCON alarm zones
(`z`), MLED-1/MDIM-8s/MOC-4 lights (`a`), MPR-8s lights/switches/binary
sensors, MSERV-3s switches/binary sensors, MROL-4s covers (whose
closing/opening topics address outputs `2·index−1` and `2·index`) and MDOT
touch sensors — with the single exception of MCON `BinaryInput509` items,
which use external index `logical index + 255`. -/
theorem C4_external_indices (mac : String) (i : Nat) (item : ItemName) :
    ((update_configs (mkTestModule 0 mac { binaryFlag := [(i, item)] })).switch.map
      (fun c => (c.uniqueId, c.stateTopic, c.commandTopic)) =
      [("ampio-" ++ mac ++ "-f" ++ toString (i + 1),
        some ("ampio/from/" ++ mac ++ "/state/f/" ++ toString (i + 1)),
        some ("ampio/to/" ++ mac ++ "/f/" ++ toString (i + 1) ++ "/cmd"))]) ∧
    ((update_configs (mkTestModule 0 mac { ow := [(i, item)] })).sensor.map
      (fun c => (c.uniqueId, c.stateTopic)) =
      [("ampio-" ++ mac ++ "-t" ++ toString (i + 1),
        some ("ampio/from/" ++ mac ++ "/state/t/" ++ toString (i + 1)))]) ∧
    ((update_configs (mkTestModule 25 mac { binaryInput254 := [(i, item)] })).binary_sensor.map
      (fun c => (c.uniqueId, c.stateTopic)) =
      [("ampio-" ++ mac ++ "-bi" ++ toString (i + 1),
        some ("ampio/from/" ++ mac ++ "/state/bi/" ++ toString (i + 1)))]) ∧
    ((update_configs (mkTestModule 25 mac { binaryInput509 := [(i, item)] })).binary_sensor.map
      (fun c => (c.uniqueId, c.stateTopic)) =
      [("ampio-" ++ mac ++ "-bi" ++ toString (i + 255),
        some ("ampio/from/" ++ mac ++ "/state/bi/" ++ toString (i + 255)))]) ∧
    ((update_configs (mkTestModule 25 mac { analogOutput254 := [(i, item)] })).alarm_control_panel.map
      (fun c => (c.uniqueId, c.stateTopic)) =
      [("ampio-" ++ mac ++ "-z" ++ toString (i + 1),
        some ("ampio/from/" ++ mac ++ "/state/a/" ++ toString (i + 1)))]) ∧
    ((update_configs (mkTestModule 17 mac { analogOutput254 := [(i, item)] })).light.map
      (fun c => (c.uniqueId, c.commandTopic)) =
      [("ampio-" ++ mac ++ "-a" ++ toString (i + 1),
        some ("ampio/to/" ++ mac ++ "/o/" ++ toString (i + 1) ++ "/cmd"))]) ∧
    ((update_configs (mkTestModule 5 mac { binaryOutput254 := [(i, item)] })).light.map
      (fun c => c.uniqueId) = ["ampio-" ++ mac ++ "-a" ++ toString (i + 1)]) ∧
    ((update_configs (mkTestModule 26 mac { binaryOutput254 := [(i, item)] })).light.map
      (fun c => c.uniqueId) = ["ampio-" ++ mac ++ "-a" ++ toString (i + 1)]) ∧
    ((update_configs (mkTestModule 4 mac
        { binaryOutput254 := [(i, mkItemName "L:Lamp")] })).light.map
      (fun c => c.uniqueId) = ["ampio-" ++ mac ++ "-a" ++ toString (i + 1)]) ∧
    ((update_configs (mkTestModule 4 mac
        { binaryOutput254 := [(i, mkItemName "Pump")] })).switch.map
      (fun c => c.uniqueId) = ["ampio-" ++ mac ++ "-bo" ++ toString (i + 1)]) ∧
    ((update_configs (mkTestModule 4 mac { binaryInput254 := [(i, item)] })).binary_sensor.map
      (fun c => c.uniqueId) = ["ampio-" ++ mac ++ "-i" ++ toString (i + 1)]) ∧
    ((update_configs (mkTestModule 10 mac { binaryOutput254 := [(i, item)] })).switch.map
      (fun c => c.uniqueId) = ["ampio-" ++ mac ++ "-bo" ++ toString (i + 1)]) ∧
    ((update_configs (mkTestModule 10 mac { binaryInput254 := [(i, item)] })).binary_sensor.map
      (fun c => c.uniqueId) = ["ampio-" ++ mac ++ "-i" ++ toString (i + 1)]) ∧
    ((update_configs (mkTestModule 3 mac { binaryOutput254 := [(i, item)] })).cover.map
      (fun c => (c.uniqueId, c.stateTopic, c.closingStateTopic, c.openingStateTopic,
        c.commandTopic)) =
      [("ampio-" ++ mac ++ "-co" ++ toString (i + 1),
        some ("ampio/from/" ++ mac ++ "/state/a/" ++ toString (i + 1)),
        some ("ampio/from/" ++ mac ++ "/state/o/" ++ toString (2 * i + 1)),
        some ("ampio/from/" ++ mac ++ "/state/o/" ++ toString (2 * (i + 1))),
        some ("ampio/to/" ++ mac ++ "/o/" ++ toString (i + 1) ++ "/cmd"))]) ∧
    ((update_configs (mkTestModule 3 mac { binaryInput254 := [(i, item)] })).binary_sensor.map
      (fun c => c.uniqueId) = ["ampio-" ++ mac ++ "-i" ++ toString (i + 1)]) ∧
    ((update_configs (mkTestModule 33 mac {})).binary_sensor.map
      (fun c => c.uniqueId) =
      ["ampio-" ++ mac ++ "-i" ++ toString 1, "ampio-" ++ mac ++ "-i" ++ toString 2]) := by
  refine ⟨rfl, rfl, rfl, rfl, rfl, rfl, rfl, rfl, rfl, rfl, rfl, rfl, rfl, ?_, rfl, rfl⟩
  show _ = [("ampio-" ++ mac ++ "-co" ++ toString (i + 1),
    some ("ampio/from/" ++ mac ++ "/state/a/" ++ toString (i + 1)),
    some ("ampio/from/" ++ mac ++ "/state/o/" ++ toString (2 * i + 1)),
    some ("ampio/from/" ++ mac ++ "/state/o/" ++ toString (2 * (i + 1))),
    some ("ampio/to/" ++ mac ++ "/o/" ++ toString (i + 1) ++ "/cmd"))]
  have h2i : 2 * (i + 1 - 1) + 1 = 2 * i + 1 := rfl
  rfl

/-! ## C5: the device-list schema contradicts its consumer -/

/-- A device entry shaped as the spec documents the wire format:
`bi`/`bo`/`ai`/`ao` counts. -/
def c5SpecDevice : JVal :=
  JVal.jobj [("mac", JVal.jstr "1B88"), ("user_mac", JVal.jstr "1B88"),
    ("typ", JVal.jnum 4), ("pcb", JVal.jnum 1), ("soft_ver", JVal.jnum 100),
    ("protocol", JVal.jnum 1), ("date_prod", JVal.jnum 2020),
    ("bi", JVal.jnum 8), ("bo", JVal.jnum 8), ("ai", JVal.jnum 0),
    ("ao", JVal.jnum 0), ("f", JVal.jnum 32), ("name", JVal.jstr "QQ==")]

/-- A device-list payload shaped as the spec documents it:
`{"devices": [...]}`. -/
def c5SpecPayload : JVal :=
  JVal.jobj [("devices", JVal.jarr [c5SpecDevice])]

/-- A device entry shaped as `AMPIO_DEVICE_SCHEMA` actually demands:
`i`/`o`/`a`/`au`/`t` counts instead of `bi`/`bo`/`ai`/`ao`. -/
def c5CodeDevice : JVal :=
  JVal.jobj [("mac", JVal.jstr "1B88"), ("user_mac", JVal.jstr "1B88"),
    ("typ", JVal.jnum 4), ("pcb", JVal.jnum 1), ("soft_ver", JVal.jnum 100),
    ("protocol", JVal.jnum 1), ("date_prod", JVal.jnum 2020),
    ("i", JVal.jnum 8), ("o", JVal.jnum 8), ("a", JVal.jnum 0),
    ("au", JVal.jnum 0), ("t", JVal.jnum 0), ("f", JVal.jnum 32),
    ("name", JVal.jstr "QQ==")]

theorem AMPIO_DEVICES_SCHEMA_shape (p w : JVal)
    (h : AMPIO_DEVICES_SCHEMA p = some w) :
    ∃ s d, w = JVal.jobj [("s", JVal.jnum s), ("d", JVal.jarr d)] := by
  unfold AMPIO_DEVICES_SCHEMA at h
  cases p with
  | jobj fields =>
    dsimp only at h
    by_cases hall : (fields.all fun kv => decide (kv.1 = "s" ∨ kv.1 = "d")) = true
    · rw [if_pos hall] at h
      obtain ⟨sv, _, h2⟩ := Option.bind_eq_some.mp h
      obtain ⟨devs, _, h3⟩ := Option.map_eq_some'.mp h2
      exact ⟨sv, devs, h3.symm⟩
    · rw [if_neg hall] at h
      exact absurd h (by simp)
  | jnull => exact absurd h (by simp)
  | jbool b => exact absurd h (by simp)
  | jnum n => exact absurd h (by simp)
  | jstr s => exact absurd h (by simp)
  | jarr l => exact absurd h (by simp)

theorem from_topic_payload_always_raises (p : JVal) :
    AmpioModuleInfo.from_topic_payload p = none := by
  unfold AmpioModuleInfo.from_topic_payload
  cases h : AMPIO_DEVICES_SCHEMA p with
  | none => rfl
  | some w =>
    obtain ⟨s, d, rfl⟩ := AMPIO_DEVICES_SCHEMA_shape p w h
    rfl

/-- **C5**.  Decoding a device-list response can never succeed: a payload
carrying a `devices` array (as the spec and `models.py` intend) is
rejected by `AMPIO_DEVICES_SCHEMA` (`PREVENT_EXTRA`: only `s`/`d` are
allowed); a device entry with `bi`/`bo`/`ai`/`ao` is rejected by
`AMPIO_DEVICE_SCHEMA`, which instead demands `i`/`o`/`a`/`au`/`t`; and
even a payload that validates yields no `devices` key, so
`from_topic_payload` raises on every input. -/
theorem C5_device_list_decode_never_succeeds :
    AmpioModuleInfo.from_topic_payload c5SpecPayload = none ∧
    AMPIO_DEVICE_SCHEMA c5SpecDevice = none ∧
    (AMPIO_DEVICE_SCHEMA c5CodeDevice).isSome = true ∧
    ∀ p, AmpioModuleInfo.from_topic_payload p = none :=
  ⟨rfl, rfl, rfl, from_topic_payload_always_raises⟩

/-! ## C6: processing a name response deletes the module descriptor -/

theorem lookup_assocDel {α : Type} (l : List (String × α)) (k : String) :
    (assocDel l k).lookup k = none := by
  induction l with
  | nil => rfl
  | cons kv rest ih =>
    rcases kv with ⟨k', v⟩
    by_cases hk : k' = k
    · have hstep : assocDel ((k', v) :: rest) k = assocDel rest k := by
        simp [assocDel, List.filter_cons, hk]
      rw [hstep]
      exact ih
    · have hstep : assocDel ((k', v) :: rest) k = (k', v) :: assocDel rest k := by
        simp [assocDel, List.filter_cons, hk]
      have hbeq : (k == k') = false := beq_eq_false_iff_ne.mpr (Ne.symm hk)
      rw [hstep]
      simp [List.lookup, hbeq, ih]

theorem addConfigs_uids_mono (cfgs : List (String × Config)) :
    ∀ uids data x, x ∈ uids → x ∈ (addConfigs uids data cfgs).1 := by
  induction cfgs with
  | nil => intro uids data x hx; exact hx
  | cons pc rest ih =>
    intro uids data x hx
    rcases pc with ⟨comp, cfg⟩
    by_cases hmem : cfg.uniqueId ∈ uids
    · simp only [addConfigs, if_pos hmem]
      exact ih _ _ _ hx
    · simp only [addConfigs, if_neg hmem]
      exact ih _ _ _ (List.mem_append_left _ hx)

theorem addConfigs_mem_uid (cfgs : List (String × Config)) :
    ∀ uids data pc, pc ∈ cfgs → pc.2.uniqueId ∈ (addConfigs uids data cfgs).1 := by
  induction cfgs with
  | nil => intro _ _ _ h; cases h
  | cons hd rest ih =>
    intro uids data pc hpc
    rcases hd with ⟨comp, cfg⟩
    rcases List.mem_cons.mp hpc with heq | hmem
    · subst heq
      by_cases hin : cfg.uniqueId ∈ uids
      · simp only [addConfigs, if_pos hin]
        exact addConfigs_uids_mono rest _ _ _ hin
      · simp only [addConfigs, if_neg hin]
        exact addConfigs_uids_mono rest _ _ _ (by simp)
    · by_cases hin : cfg.uniqueId ∈ uids
      · simp only [addConfigs, if_pos hin]
        exact ih _ _ _ hmem
      · simp only [addConfigs, if_neg hin]
        exact ih _ _ _ hmem

/-- The module and state of the C6 scenario: one registered MPR-8s module
pending under user MAC `1B88`. -/
def c6Module : Module :=
  { mac := "1B88", user_mac := "1B88", code := 4, pcb := 1, software := 100,
    protocol := 1, date_prod := "0", bi := 8, bo := 8, ai := 0, ao := 0,
    flags := 32, name := "Flag", names := {} }

def c6State : DiscoveryState :=
  { modules := [("1B88", c6Module)] }

def c6Names : Names := { binaryFlag := [(0, mkItemName "FXest")] }

/-- The switch config the C6 name response generates. -/
def c6Cfg : Config :=
  { uniqueId := "ampio-1B88-f1", name := "1B88-f1", friendlyName := "FXest",
    stateTopic := some "ampio/from/1B88/state/f/1",
    commandTopic := some "ampio/to/1B88/f/1/cmd",
    icon := some "mdi:flag",
    device := { userMac := "1B88", name := "Flag", model := "MPR-8s [1B88/1B88]",
                swVersion := 100 } }

/-- **C6, counterexample**.  The module descriptor for `1B88` is present
before the name response and gone from the (only) MAC-keyed module mapping
after it: `module_names_received` executes `del hass.data[DATA_AMPIO_MODULES][mac]`,
so the descriptor does not remain in the registry. -/
theorem C6_counterexample :
    c6State.modules.lookup "1B88" = some c6Module ∧
    (module_names_received c6State "ampio/from/1B88/description"
      (some c6Names)).modules.lookup "1B88" = none :=
  ⟨rfl, rfl⟩

/-- **C6, amended**.  Processing a name response for a registered MAC
deletes that MAC's module descriptor from the module mapping (which doubles
as the pending set — there is no separate registry), while every entity
config recomputed from the response has its unique id retained in the
unique-id set (and the unseen ones are appended to the per-component
lists). -/
theorem C6_name_response_deletes_module (st : DiscoveryState)
    (topic mac : String) (m : Module) (names : Names)
    (h1 : extractMac topic = some mac)
    (h2 : st.modules.lookup mac = some m) :
    ((module_names_received st topic (some names)).modules.lookup mac = none) ∧
    ∀ pc ∈ componentList (update_configs { m with names := names }),
      pc.2.uniqueId ∈ (module_names_received st topic (some names)).uniqueIds := by
  have hm : module_names_received st topic (some names) =
      { modules := assocDel st.modules mac,
        uniqueIds := (addConfigs st.uniqueIds st.dataConfigs
          (componentList (update_configs { m with names := names }))).1,
        dataConfigs := (addConfigs st.uniqueIds st.dataConfigs
          (componentList (update_configs { m with names := names }))).2,
        signals := if assocDel st.modules mac = [] then st.signals + 1
                   else st.signals } := by
    unfold module_names_received
    rw [h1]
    dsimp only
    rw [h2]
  rw [hm]
  exact ⟨lookup_assocDel _ _, fun pc hpc => addConfigs_mem_uid _ _ _ _ hpc⟩

/-- Witness for C6 on the concrete `1B88` scenario. -/
theorem C6_name_response_deletes_module_witness :
    extractMac "ampio/from/1B88/description" = some "1B88" ∧
    c6State.modules.lookup "1B88" = some c6Module ∧
    (module_names_received c6State "ampio/from/1B88/description"
      (some c6Names)).modules.lookup "1B88" = none ∧
    "ampio-1B88-f1" ∈ (module_names_received c6State
      "ampio/from/1B88/description" (some c6Names)).uniqueIds := by
  have h := C6_name_response_deletes_module c6State
    "ampio/from/1B88/description" "1B88" c6Module c6Names rfl rfl
  refine ⟨rfl, rfl, h.1, ?_⟩
  exact h.2 ("switch", c6Cfg) (by decide)

/-! ## C7: an empty device list does not complete discovery -/

/-- **C7, counterexample**.  Receiving a device-list response with an empty
device array leaves the freshly initialized discovery state untouched —
no name requests are published and, in particular, the
"all modules discovered" signal is never emitted (`signals = 0`), contrary
to the claim that it completes discovery immediately. -/
theorem C7_counterexample :
    (device_list_received ({} : DiscoveryState) []).1 = {} ∧
    (device_list_received ({} : DiscoveryState) []).2 = [] ∧
    (device_list_received ({} : DiscoveryState) []).1.signals = 0 :=
  ⟨rfl, rfl, rfl⟩

theorem device_list_foldl_signals (mods : List Module) :
    ∀ acc : DiscoveryState × List String,
      ((mods.foldl (fun acc m =>
          ({ acc.1 with modules := assocSet acc.1.modules m.user_mac m },
           acc.2 ++ ["ampio/to/" ++ m.user_mac ++ "/description"])) acc).1.signals
        = acc.1.signals) ∧
      ((mods.foldl (fun acc m =>
          ({ acc.1 with modules := assocSet acc.1.modules m.user_mac m },
           acc.2 ++ ["ampio/to/" ++ m.user_mac ++ "/description"])) acc).1.uniqueIds
        = acc.1.uniqueIds) := by
  induction mods with
  | nil => intro acc; exact ⟨rfl, rfl⟩
  | cons m rest ih =>
    intro acc
    simp only [List.foldl_cons]
    exact ih _

/-- **C7, amended**.  A device-list response with an empty device array
leaves the discovery state unchanged and publishes no name requests; the
device-list handler never emits the "all modules discovered" signal for any
device list — the signal is emitted only by `module_names_received`, and
only when deleting the resolved MAC empties the module mapping. -/
theorem C7_empty_device_list :
    (∀ st : DiscoveryState,
      (device_list_received st []).1 = st ∧ (device_list_received st []).2 = []) ∧
    (∀ (st : DiscoveryState) (mods : List Module),
      (device_list_received st mods).1.signals = st.signals) ∧
    (∀ (st : DiscoveryState) (topic : String) (names? : Option Names),
      (module_names_received st topic names?).signals = st.signals ∨
      ((module_names_received st topic names?).signals = st.signals + 1 ∧
       (module_names_received st topic names?).modules = [])) := by
  refine ⟨fun st => ⟨rfl, rfl⟩,
    fun st mods => (device_list_foldl_signals mods (st, [])).1, ?_⟩
  intro st topic names?
  unfold module_names_received
  cases hx : extractMac topic with
  | none => exact Or.inl rfl
  | some mac =>
    dsimp only
    cases hl : st.modules.lookup mac with
    | none => exact Or.inl rfl
    | some m =>
      dsimp only
      cases names? with
      | none => exact Or.inl rfl
      | some names =>
        dsimp only
        by_cases hempty : assocDel st.modules mac = []
        · exact Or.inr ⟨by rw [if_pos hempty], hempty⟩
        · exact Or.inl (by rw [if_neg hempty])

/-! ## C8: subscription handle removal -/

/-- A concrete subscription (and a second one sharing its pattern). -/
def c8Sub : Subscription :=
  { topic := "ampio/from/can/dev/list", callback := 0, qos := 0,
    encoding := some "utf-8" }

def c8SubB : Subscription :=
  { topic := "ampio/from/can/dev/list", callback := 1, qos := 0,
    encoding := some "utf-8" }

/-- **C8, counterexample**.  With two value-identical subscriptions
registered (same pattern, callback, qos and encoding — the attrs identity
tuple), invoking the same handle twice raises no error: the first
invocation removes one copy (no unsubscribe, the other copy still
references the pattern), and the second invocation succeeds as well,
removing the duplicate and issuing the bus-level unsubscribe — the claim
that a second invocation always raises is false. -/
theorem C8_counterexample :
    async_remove true [c8Sub, c8Sub] c8Sub = some ([c8Sub], false) ∧
    async_remove true [c8Sub] c8Sub = some ([], true) :=
  ⟨rfl, rfl⟩

/-- **C8, amended**.  Invoking a subscription handle removes one
subscription equal to the handle's (the list is a permutation of the
removed element and the rest), issues a bus-level UNSUBSCRIBE only when
connected and no remaining subscription references the same topic pattern
(so with two subscriptions on one pattern, removing one leaves the other
and unsubscribes nothing), and invoking the handle again raises an error
precisely when no subscription equal to it remains — with value-identical
duplicates the second invocation removes the duplicate instead of
raising. -/
theorem C8_handle_removal (connected : Bool) (subs : List Subscription)
    (s : Subscription) (h : s ∈ subs) :
    (async_remove connected subs s =
      some (subs.erase s,
        if (subs.erase s).any (fun other => other.topic = s.topic) then false
        else connected)) ∧
    subs.Perm (s :: subs.erase s) ∧
    (∀ subs' : List Subscription, s ∉ subs' →
      async_remove connected subs' s = none) ∧
    (∀ t ∈ subs.erase s, t.topic = s.topic →
      async_remove connected subs s = some (subs.erase s, false)) := by
  refine ⟨?_, List.perm_cons_erase h, ?_, ?_⟩
  · unfold async_remove
    rw [if_pos h]
    by_cases hc : ((subs.erase s).any fun other => decide (other.topic = s.topic)) = true
    · rw [if_pos hc, if_pos hc]
    · rw [if_neg hc, if_neg hc]
  · intro subs' hns
    unfold async_remove
    rw [if_neg hns]
  · intro t ht htop
    have hc : ((subs.erase s).any fun other => decide (other.topic = s.topic)) = true :=
      List.any_eq_true.mpr ⟨t, ht, decide_eq_true htop⟩
    unfold async_remove
    rw [if_pos h, if_pos hc]

/-- Witness for C8: two subscriptions on one pattern with different
callbacks; removing one keeps the other and unsubscribes nothing; invoking
the same handle again errors. -/
theorem C8_handle_removal_witness :
    c8Sub ∈ [c8Sub, c8SubB] ∧
    async_remove true [c8Sub, c8SubB] c8Sub = some ([c8SubB], false) ∧
    async_remove true [c8SubB] c8Sub = none := by
  have h := C8_handle_removal true [c8Sub, c8SubB] c8Sub (by decide)
  refine ⟨by decide, ?_, h.2.2.1 [c8SubB] (by decide)⟩
  rw [h.1]
  rfl

/-! ## C9: item-name extraction -/

theorem splitOnColon_of_not_mem (l : List Char) (h : ':' ∉ l) :
    splitOnColon l = [l] := by
  induction l with
  | nil => rfl
  | cons c cs ih =>
    rw [List.mem_cons, not_or] at h
    have hne : ¬c = ':' := fun hc => h.1 hc.symm
    simp only [splitOnColon, if_neg hne]
    rw [ih h.2]

theorem splitOnColon_append (pre post : List Char) (h : ':' ∉ pre) :
    splitOnColon (pre ++ ':' :: post) = pre :: splitOnColon post := by
  induction pre with
  | nil => rfl
  | cons c cs ih =>
    rw [List.mem_cons, not_or] at h
    have hne : ¬c = ':' := fun hc => h.1 hc.symm
    show splitOnColon (c :: (cs ++ ':' :: post)) = (c :: cs) :: splitOnColon post
    simp only [splitOnColon, if_neg hne]
    rw [ih h.2]

theorem flatten_splitOnColon (l : List Char) :
    (splitOnColon l).flatten = l.filter (fun c => c ≠ ':') := by
  induction l with
  | nil => rfl
  | cons c cs ih =>
    by_cases hc : c = ':'
    · subst hc
      simp only [splitOnColon, if_pos rfl, List.flatten_cons, List.nil_append,
        List.filter_cons]
      simpa using ih
    · simp only [splitOnColon, if_neg hc]
      cases hsp : splitOnColon cs with
      | nil => exact absurd hsp (splitOnColon_ne_nil cs)
      | cons p ps =>
        rw [hsp] at ih
        simp only [List.flatten_cons, List.cons_append, List.filter_cons] at ih ⊢
        simp [hc, ih]

/-- The display name as the CLAIM words it (second definition, following
the spec text, for comparison with `extract_name`): the text after the
last colon, or the whole string when it has no colon. -/
def specDisplayName (s : String) : String :=
  if s.toList.contains ':' then
    String.mk (s.toList.reverse.takeWhile (fun c => c ≠ ':')).reverse
  else s

/-- **C9, counterexample**.  On the decoded name `D:foo:bar` the code's
`extract_name` returns `foobar` (it joins all colon-separated parts after
the first, deleting the remaining colons), while the claim's
"text after the last colon-delimited prefix" is `bar`. -/
theorem C9_counterexample :
    extract_name "D:foo:bar" = "foobar" ∧
    specDisplayName "D:foo:bar" = "bar" ∧
    ("foobar" : String) ≠ "bar" :=
  ⟨rfl, rfl, by decide⟩

/-- **C9, amended**.  For a decoded item name with at least one colon, the
display name is the concatenation of all colon-separated parts after the
first (the text after the first colon with every remaining colon removed);
a string without a colon is its own display name.  The device class is the
`DEVICE_CLASSES` lookup of the text before the first colon, and is absent
when the string has no colon (and hence, by the lookup, when this prefix
is not in the table). -/
theorem C9_name_extraction :
    (∀ pre post : List Char, ':' ∉ pre →
      extract_name (String.mk (pre ++ ':' :: post)) =
        String.mk (post.filter (fun c => c ≠ ':'))) ∧
    (∀ l : List Char, ':' ∉ l → extract_name (String.mk l) = String.mk l) ∧
    (∀ pre post : List Char, ':' ∉ pre →
      extract_device_class (String.mk (pre ++ ':' :: post)) =
        DEVICE_CLASSES.lookup (String.mk pre)) ∧
    (∀ l : List Char, ':' ∉ l → extract_device_class (String.mk l) = none) := by
  refine ⟨?_, ?_, ?_, ?_⟩
  · intro pre post h
    simp only [extract_name]
    rw [show (String.mk (pre ++ ':' :: post)).toList = pre ++ ':' :: post from rfl,
      splitOnColon_append pre post h]
    have hlen : (pre :: splitOnColon post).length > 1 := by
      cases hsp : splitOnColon post with
      | nil => exact absurd hsp (splitOnColon_ne_nil post)
      | cons q qs => simp
    rw [if_pos hlen]
    have hdrop : (pre :: splitOnColon post).drop 1 = splitOnColon post := rfl
    rw [hdrop, flatten_splitOnColon]
  · intro l h
    simp only [extract_name]
    rw [show (String.mk l).toList = l from rfl, splitOnColon_of_not_mem l h]
    rfl
  · intro pre post h
    simp only [extract_device_class]
    rw [show (String.mk (pre ++ ':' :: post)).toList = pre ++ ':' :: post from rfl,
      splitOnColon_append pre post h]
    cases hsp : splitOnColon post with
    | nil => exact absurd hsp (splitOnColon_ne_nil post)
    | cons q qs => rfl
  · intro l h
    simp only [extract_device_class]
    rw [show (String.mk l).toList = l from rfl, splitOnColon_of_not_mem l h]

/-- Witness for C9 on `D:foo:bar` (prefix `D`, remainder `foo:bar`). -/
theorem C9_name_extraction_witness :
    (':' ∉ ['D']) ∧
    extract_name (String.mk (['D'] ++ ':' :: ("foo:bar").toList)) =
      String.mk (("foo:bar").toList.filter (fun c => c ≠ ':')) ∧
    extract_device_class (String.mk (['D'] ++ ':' :: ("foo:bar").toList)) =
      DEVICE_CLASSES.lookup (String.mk ['D']) :=
  ⟨by decide, C9_name_extraction.1 ['D'] (("foo:bar").toList) (by decide),
    C9_name_extraction.2.2.1 ['D'] (("foo:bar").toList) (by decide)⟩

/-! ## C10: base64 name decoding and whitespace -/

theorem head?_dropWhile_not (p : Char → Bool) (l : List Char) (c : Char)
    (h : (l.dropWhile p).head? = some c) : p c = false := by
  induction l with
  | nil => cases h
  | cons a l ih =>
    by_cases hp : p a = true
    · rw [List.dropWhile_cons, if_pos hp] at h
      exact ih h
    · rw [List.dropWhile_cons, if_neg hp] at h
      have hac : a = c := by simpa using h
      subst hac
      exact Bool.eq_false_iff.mpr hp

theorem getLast?_dropWhile (p : Char → Bool) (l : List Char)
    (h : l.dropWhile p ≠ []) : (l.dropWhile p).getLast? = l.getLast? := by
  induction l with
  | nil => exact absurd rfl h
  | cons a l ih =>
    by_cases hp : p a = true
    · rw [List.dropWhile_cons, if_pos hp] at h ⊢
      rw [ih h]
      cases l with
      | nil => exact absurd rfl h
      | cons b m => rw [List.getLast?_cons_cons]
    · rw [List.dropWhile_cons, if_neg hp]

theorem stripChars_head (l : List Char) :
    (stripChars l).head?.all (fun c => !c.isWhitespace) = true := by
  unfold stripChars
  rw [List.head?_reverse]
  by_cases hr : (l.dropWhile Char.isWhitespace).reverse.dropWhile Char.isWhitespace = []
  · rw [hr]; rfl
  · rw [getLast?_dropWhile _ _ hr, List.getLast?_reverse]
    cases hh : (l.dropWhile Char.isWhitespace).head? with
    | none => rfl
    | some c => simp [head?_dropWhile_not _ l c hh]

theorem stripChars_last (l : List Char) :
    (stripChars l).getLast?.all (fun c => !c.isWhitespace) = true := by
  unfold stripChars
  rw [List.getLast?_reverse]
  cases hh : ((l.dropWhile Char.isWhitespace).reverse.dropWhile Char.isWhitespace).head? with
  | none => rfl
  | some c => simp [head?_dropWhile_not _ _ c hh]

/-- **C10, counterexample**.  The base64 payload `RDogeA==` decodes to
`D: x` (already stripped), but the `ItemName` built from it has display
name `" x"` — the text after the colon — which begins with whitespace,
contrary to the claim that no constructed item display name carries
surrounding whitespace. -/
theorem C10_counterexample :
    (itemNameFromB64 "RDogeA==").map ItemName.name = some " x" ∧
    (" x" : String).toList.head? = some ' ' ∧ (' ').isWhitespace = true :=
  ⟨rfl, rfl, rfl⟩

/-- **C10, amended**.  `base64decode` first attempts UTF-8 and falls back
to cp1254 on a decode error, stripping the result in both branches, so
every successfully decoded string — the module display name and the raw
`ItemName.d` string — carries no leading or trailing whitespace; an item's
*extracted* display name, obtained from the stripped string by dropping
its colon prefix, can however still carry whitespace. -/
theorem C10_decoded_names_are_stripped (v s : String)
    (h : base64decode v = some s) :
    s.toList.head?.all (fun c => !c.isWhitespace) = true ∧
    s.toList.getLast?.all (fun c => !c.isWhitespace) = true := by
  unfold base64decode at h
  cases hb : b64decodeBytes v with
  | none =>
    rw [hb] at h
    exact Option.noConfusion h
  | some bytes =>
    rw [hb] at h
    dsimp only at h
    cases hu : utf8Decode bytes with
    | some cs =>
      rw [hu] at h
      dsimp only at h
      have hs : s = pyStrip (String.mk cs) := (Option.some.inj h).symm
      subst hs
      exact ⟨stripChars_head _, stripChars_last _⟩
    | none =>
      rw [hu] at h
      dsimp only at h
      obtain ⟨cs, _, hs⟩ := Option.map_eq_some'.mp h
      subst hs
      exact ⟨stripChars_head _, stripChars_last _⟩

/-- Witness for C10 on `0A==`, whose byte `0xD0` is invalid UTF-8 and
decodes through the cp1254 fallback to `Ğ`. -/
theorem C10_decoded_names_are_stripped_witness :
    base64decode "0A==" = some "Ğ" ∧
    ("Ğ" : String).toList.head?.all (fun c => !c.isWhitespace) = true :=
  ⟨rfl, (C10_decoded_names_are_stripped "0A==" "Ğ" rfl).1⟩

end Ampio
